import Mathlib

/-!
Shallow embedding of `src/pdf_internals/src/lib.rs` (crate `pdf_internals`
of the pdfexcavator repository): a PDF header-version detector.

Bytes are modelled as `Nat` (values below 256 in practice); a byte source
is a list of bytes together with a read position.  The `io::Error` type of
the Rust standard library is outside the crate and is modelled abstractly
as a `Nat` error code.
-/

/-- Abstract model of `std::io::Error`: an opaque error code. -/
abbrev IOError := Nat

/-- `PDFInitializationError` from lib.rs: either a wrapped I/O failure
(`FileOpen`, produced by the `#[from] io::Error` conversion) or an
unrecognised version string (`BadVersionIdentifier`). -/
inductive PDFInitializationError where
  | FileOpen (e : IOError)
  | BadVersionIdentifier
deriving DecidableEq, Repr

/-- The `#[error("...")]` display strings attached by `thiserror` to each
variant of `PDFInitializationError`. -/
def errorMessage : PDFInitializationError → String
  | .FileOpen _ => "unable to open file"
  | .BadVersionIdentifier => "could not recognize version string, may not be a pdf file"

/-- The `PDFVersion` enum from lib.rs, in declaration order. -/
inductive PDFVersion where
  | PDF1_0
  | PDF1_1
  | PDF1_2
  | PDF1_3
  | PDF1_4
  | PDF1_5
  | PDF1_6
  | PDF1_7
  | PDF2_0
deriving DecidableEq, Repr, Fintype

/-- Discriminant of a `PDFVersion` value: the derived `Ord`/`PartialOrd`
on a fieldless Rust enum compares these declaration-order discriminants. -/
def PDFVersion.discriminant : PDFVersion → Nat
  | .PDF1_0 => 0
  | .PDF1_1 => 1
  | .PDF1_2 => 2
  | .PDF1_3 => 3
  | .PDF1_4 => 4
  | .PDF1_5 => 5
  | .PDF1_6 => 6
  | .PDF1_7 => 7
  | .PDF2_0 => 8

/-- The strict order `<` of the derived `Ord` on `PDFVersion`. -/
def PDFVersion.lt (a b : PDFVersion) : Prop :=
  a.discriminant < b.discriminant

/-- The non-strict order `<=` of the derived `Ord` on `PDFVersion`. -/
def PDFVersion.le (a b : PDFVersion) : Prop :=
  a.discriminant ≤ b.discriminant

instance (a b : PDFVersion) : Decidable (PDFVersion.lt a b) :=
  inferInstanceAs (Decidable (a.discriminant < b.discriminant))

instance (a b : PDFVersion) : Decidable (PDFVersion.le a b) :=
  inferInstanceAs (Decidable (a.discriminant ≤ b.discriminant))

/-- The `Display` implementation for `PDFVersion` from lib.rs. -/
def PDFVersion.display : PDFVersion → String
  | .PDF1_0 => "1.0"
  | .PDF1_1 => "1.1"
  | .PDF1_2 => "1.2"
  | .PDF1_3 => "1.3"
  | .PDF1_4 => "1.4"
  | .PDF1_5 => "1.5"
  | .PDF1_6 => "1.6"
  | .PDF1_7 => "1.7"
  | .PDF2_0 => "2.0"

/-- The CRLF-form byte pattern of one arm of the `match &buf` expression
in `PDFReader::from_bufreader`: `b"%PDF-<maj>.<min>\r\n"`, all ten bytes
fixed.  `maj` and `minor` are the ASCII digit byte values.  Byte values:
`%` = 37, `P` = 80, `D` = 68, `F` = 70, `-` = 45, `.` = 46, `\r` = 13,
`\n` = 10, digits `0`..`9` = 48..57. -/
def crlfPat (maj minor : Nat) : List Nat :=
  [37, 80, 68, 70, 45, maj, 46, minor, 13, 10]

/-- The LF-form slice pattern of one arm of the `match &buf` expression:
`&[b'%', b'P', b'D', b'F', b'-', maj, b'.', minor, b'\n', _]` holds of
`buf` exactly when `buf` has ten bytes whose first nine are
`%PDF-<maj>.<min>\n`; the tenth byte is a wildcard. -/
def lfArm (maj minor : Nat) (buf : List Nat) : Bool :=
  buf.take 9 == [37, 80, 68, 70, 45, maj, 46, minor, 10] && buf.length == 10

/-- The `match &buf { ... }` expression of `PDFReader::from_bufreader`,
testing the 10-byte window against the nine arms in source order (the
arms are mutually disjoint, so first-match order is immaterial); each arm
accepts its CRLF pattern or its LF pattern, and the final wildcard arm
produces `BadVersionIdentifier`. -/
def version_match (buf : List Nat) : Except PDFInitializationError PDFVersion :=
  if buf == crlfPat 49 48 || lfArm 49 48 buf then .ok .PDF1_0
  else if buf == crlfPat 49 49 || lfArm 49 49 buf then .ok .PDF1_1
  else if buf == crlfPat 49 50 || lfArm 49 50 buf then .ok .PDF1_2
  else if buf == crlfPat 49 51 || lfArm 49 51 buf then .ok .PDF1_3
  else if buf == crlfPat 49 52 || lfArm 49 52 buf then .ok .PDF1_4
  else if buf == crlfPat 49 53 || lfArm 49 53 buf then .ok .PDF1_5
  else if buf == crlfPat 49 54 || lfArm 49 54 buf then .ok .PDF1_6
  else if buf == crlfPat 49 55 || lfArm 49 55 buf then .ok .PDF1_7
  else if buf == crlfPat 50 48 || lfArm 50 48 buf then .ok .PDF2_0
  else .error .BadVersionIdentifier

/-- The ten-byte window after `bf.read(&mut buf)` deposited `deposited`
into the zero-initialised `[0u8; 10]` buffer: the deposited bytes (at most
ten of them) followed by the untouched zero bytes. -/
def mkWindow (deposited : List Nat) : List Nat :=
  deposited.take 10 ++ List.replicate (10 - (deposited.take 10).length) 0

/-- The body of `PDFReader::from_bufreader` as a function of the outcome
of the single `bf.read(&mut buf)` call: an I/O error propagates through
`?` (and the `#[from]` conversion turns it into `FileOpen`); otherwise
the deposited bytes fill the window, which is matched. -/
def from_read_result (r : Except IOError (List Nat)) :
    Except PDFInitializationError PDFVersion :=
  match r with
  | .error e => .error (.FileOpen e)
  | .ok deposited => version_match (mkWindow deposited)

/-- Model of `std::io::BufReader<T>` over an in-memory source: the
underlying byte stream and the current read position. -/
structure ByteReader where
  data : List Nat
  pos : Nat
deriving DecidableEq, Repr

/-- A successful `read` of up to `n` bytes: returns the bytes deposited
and the advanced reader.  This is the happy path of `Read::read`; the
position advances by exactly the number of bytes returned, and no seek
or rewind is performed. -/
def ByteReader.read (bf : ByteReader) (n : Nat) : ByteReader × List Nat :=
  let chunk := (bf.data.drop bf.pos).take n
  (⟨bf.data, bf.pos + chunk.length⟩, chunk)

/-- The `PDFReader` struct from lib.rs: the buffered source and the
resolved version. -/
structure PDFReader where
  inner : ByteReader
  version : PDFVersion
deriving DecidableEq, Repr

/-- `PDFReader::from_bufreader` on an in-memory source whose read call
succeeds: performs the single bounded read of up to 10 bytes, matches
the resulting window, and on success wraps the advanced source together
with the resolved version. -/
def from_bufreader (bf : ByteReader) : Except PDFInitializationError PDFReader :=
  let res := bf.read 10
  match version_match (mkWindow res.2) with
  | .error e => .error e
  | .ok v => .ok ⟨res.1, v⟩

/-- `PDFReader::from_file_path`: open the file (modelled by the abstract
filesystem `fs`), an open failure propagating through `?` as `FileOpen`;
on success wrap the contents in a fresh reader at position 0 and delegate
to `from_bufreader`. -/
def from_file_path (fs : String → Except IOError (List Nat)) (path : String) :
    Except PDFInitializationError PDFReader :=
  match fs path with
  | .error e => .error (.FileOpen e)
  | .ok data => from_bufreader ⟨data, 0⟩

/-- The CRLF-form signature bytes for version `v`: `%PDF-<maj>.<min>\r\n`. -/
def sigCRLF (v : PDFVersion) : List Nat :=
  [37, 80, 68, 70, 45] ++
    (match v with
      | .PDF1_0 => [49, 46, 48]
      | .PDF1_1 => [49, 46, 49]
      | .PDF1_2 => [49, 46, 50]
      | .PDF1_3 => [49, 46, 51]
      | .PDF1_4 => [49, 46, 52]
      | .PDF1_5 => [49, 46, 53]
      | .PDF1_6 => [49, 46, 54]
      | .PDF1_7 => [49, 46, 55]
      | .PDF2_0 => [50, 46, 48]) ++ [13, 10]

/-- The LF-form signature bytes for version `v` with wildcard tenth byte
`b`: `%PDF-<maj>.<min>\n` followed by `b`. -/
def sigLF (v : PDFVersion) (b : Nat) : List Nat :=
  (sigCRLF v).take 8 ++ [10, b]

instance {e a : Type} [DecidableEq e] [DecidableEq a] : DecidableEq (Except e a) :=
  fun x y =>
    match x, y with
    | .ok v, .ok w => if h : v = w then .isTrue (by rw [h]) else .isFalse (by simp [h])
    | .error v, .error w => if h : v = w then .isTrue (by rw [h]) else .isFalse (by simp [h])
    | .ok _, .error _ => .isFalse (by simp)
    | .error _, .ok _ => .isFalse (by simp)

/-- A window satisfying the LF slice pattern is the nine fixed bytes
followed by some wildcard byte. -/
theorem lfArm_shape (maj minor : Nat) (buf : List Nat)
    (h : lfArm maj minor buf = true) :
    ∃ b, buf = [37, 80, 68, 70, 45, maj, 46, minor, 10] ++ [b] := by
  rw [lfArm, Bool.and_eq_true, beq_iff_eq, beq_iff_eq] at h
  obtain ⟨h9, hlen⟩ := h
  have hd : (buf.drop 9).length = 1 := by rw [List.length_drop, hlen]
  obtain ⟨b, hb⟩ := List.length_eq_one.mp hd
  refine ⟨b, ?_⟩
  nth_rewrite 1 [← List.take_append_drop 9 buf]
  rw [h9, hb]

/-- Any error produced by the window match is `BadVersionIdentifier`. -/
theorem version_match_error_kind (buf : List Nat) (e : PDFInitializationError)
    (h : version_match buf = .error e) : e = .BadVersionIdentifier := by
  rw [version_match] at h
  split_ifs at h
  all_goals simp_all

/-- A window with the zero byte in position 8 matches no arm. -/
theorem version_match_zero8 (buf : List Nat) (h : buf[8]? = some 0) :
    version_match buf = .error .BadVersionIdentifier := by
  rw [version_match]
  split_ifs <;> first
    | rfl
    | (rename_i hc
       rw [Bool.or_eq_true] at hc
       rcases hc with hc | hc
       · rw [beq_iff_eq.mp hc] at h
         exact absurd h (by decide)
       · obtain ⟨b, hb⟩ := lfArm_shape _ _ _ hc
         rw [hb] at h
         simp at h)

/-- A window that is neither a CRLF signature nor an LF signature of any
version matches no arm. -/
theorem version_match_not_sig (buf : List Nat)
    (h : ∀ v : PDFVersion, buf ≠ sigCRLF v ∧ ∀ b : Nat, buf ≠ sigLF v b) :
    version_match buf = .error .BadVersionIdentifier := by
  rw [version_match]
  split_ifs <;> first
    | rfl
    | (exfalso
       rename_i hc
       rw [Bool.or_eq_true] at hc
       rcases hc with hc | hc
       · first
         | exact (h .PDF1_0).1 (beq_iff_eq.mp hc)
         | exact (h .PDF1_1).1 (beq_iff_eq.mp hc)
         | exact (h .PDF1_2).1 (beq_iff_eq.mp hc)
         | exact (h .PDF1_3).1 (beq_iff_eq.mp hc)
         | exact (h .PDF1_4).1 (beq_iff_eq.mp hc)
         | exact (h .PDF1_5).1 (beq_iff_eq.mp hc)
         | exact (h .PDF1_6).1 (beq_iff_eq.mp hc)
         | exact (h .PDF1_7).1 (beq_iff_eq.mp hc)
         | exact (h .PDF2_0).1 (beq_iff_eq.mp hc)
       · obtain ⟨b, hb⟩ := lfArm_shape _ _ _ hc
         first
         | exact (h .PDF1_0).2 b hb
         | exact (h .PDF1_1).2 b hb
         | exact (h .PDF1_2).2 b hb
         | exact (h .PDF1_3).2 b hb
         | exact (h .PDF1_4).2 b hb
         | exact (h .PDF1_5).2 b hb
         | exact (h .PDF1_6).2 b hb
         | exact (h .PDF1_7).2 b hb
         | exact (h .PDF2_0).2 b hb)

/-- C1: for every one of the nine PDF versions and both line-ending forms
(the CRLF form `%PDF-x.y\r\n`, and the LF form `%PDF-x.y\n` followed by an
arbitrary tenth byte), `from_bufreader` on a source beginning with that
signature returns `Ok` with exactly the corresponding `PDFVersion`. -/
theorem c1_signature_accepted (v : PDFVersion) (b : Nat) (rest : List Nat) :
    (from_bufreader ⟨sigCRLF v ++ rest, 0⟩).map PDFReader.version = .ok v ∧
    (from_bufreader ⟨sigLF v b ++ rest, 0⟩).map PDFReader.version = .ok v := by
  cases v <;> exact ⟨rfl, rfl⟩

/-- C2: every 10-byte window that is not one of the 18 accepted byte
patterns (no version's CRLF signature, and no version's LF signature with
any wildcard byte) is rejected with `BadVersionIdentifier`. -/
theorem c2_unrecognized_window_rejected (window : List Nat)
    (hw : window.length = 10)
    (h : ∀ v : PDFVersion, window ≠ sigCRLF v ∧ ∀ b : Nat, window ≠ sigLF v b) :
    from_read_result (.ok window) = .error .BadVersionIdentifier := by
  have hmw : mkWindow window = window := by
    rw [mkWindow, List.take_of_length_le hw.le, hw]
    simp
  show version_match (mkWindow window) = _
  rw [hmw]
  exact version_match_not_sig window h

/-- C2 witness: the all-zero window is rejected. -/
theorem c2_unrecognized_window_rejected_witness :
    ([0, 0, 0, 0, 0, 0, 0, 0, 0, 0] : List Nat).length = 10 ∧
    from_read_result (.ok [0, 0, 0, 0, 0, 0, 0, 0, 0, 0]) =
      .error .BadVersionIdentifier :=
  ⟨by decide, c2_unrecognized_window_rejected _ (by decide)
    (fun v => ⟨by cases v <;> decide,
      fun b => by cases v <;> simp [sigLF, sigCRLF]⟩)⟩

/-- C3: the construction path is total — for every outcome of the single
read and for every in-memory source, the result is `Ok` or one of the two
typed errors; there is no other way out. -/
theorem c3_total_typed_result :
    (∀ r : Except IOError (List Nat),
      (∃ v, from_read_result r = .ok v) ∨
      from_read_result r = .error .BadVersionIdentifier ∨
      ∃ e, from_read_result r = .error (.FileOpen e)) ∧
    (∀ bf : ByteReader,
      (∃ p, from_bufreader bf = .ok p) ∨
      from_bufreader bf = .error .BadVersionIdentifier) := by
  constructor
  · intro r
    cases r with
    | error e => exact .inr (.inr ⟨e, rfl⟩)
    | ok deposited =>
      cases hm : version_match (mkWindow deposited) with
      | ok v => exact .inl ⟨v, hm⟩
      | error e =>
        have he := version_match_error_kind _ _ hm
        subst he
        exact .inr (.inl hm)
  · intro bf
    cases hm : version_match (mkWindow (bf.read 10).2) with
    | ok v => exact .inl ⟨⟨(bf.read 10).1, v⟩, by simp [from_bufreader, hm]⟩
    | error e =>
      have he := version_match_error_kind _ _ hm
      subst he
      exact .inr (by simp [from_bufreader, hm])

/-- C4 counterexample: a read that fails entirely does not produce
`BadVersionIdentifier`; the `?` operator propagates the I/O error as
`FileOpen` instead. -/
theorem c4_counterexample :
    from_read_result (.error 0) = .error (.FileOpen 0) ∧
    from_read_result (.error 0) ≠ .error .BadVersionIdentifier :=
  ⟨rfl, by decide⟩

/-- C4 (amended): when the single read succeeds but deposits no bytes, the
all-zero window matches nothing and `from_bufreader` reports
`BadVersionIdentifier`; a read that fails with an I/O error instead
surfaces as the `FileOpen` kind. -/
theorem c4_empty_read_bad_version :
    from_read_result (.ok []) = .error .BadVersionIdentifier ∧
    ∀ e : IOError, from_read_result (.error e) = .error (.FileOpen e) :=
  ⟨rfl, fun _ => rfl⟩

/-- C5: the derived order on `PDFVersion` is a total order (transitive,
total, antisymmetric) and matches specification chronology, in particular
`PDF1_0 < PDF1_1 < … < PDF1_7 < PDF2_0` and `PDF1_0 < PDF1_4 < PDF2_0`. -/
theorem c5_total_order :
    (∀ a b c : PDFVersion, a.lt b → b.lt c → a.lt c) ∧
    (∀ a b : PDFVersion, a.le b ∨ b.le a) ∧
    (∀ a b : PDFVersion, a.le b → b.le a → a = b) ∧
    (PDFVersion.PDF1_0.lt .PDF1_1 ∧ PDFVersion.PDF1_1.lt .PDF1_2 ∧
     PDFVersion.PDF1_2.lt .PDF1_3 ∧ PDFVersion.PDF1_3.lt .PDF1_4 ∧
     PDFVersion.PDF1_4.lt .PDF1_5 ∧ PDFVersion.PDF1_5.lt .PDF1_6 ∧
     PDFVersion.PDF1_6.lt .PDF1_7 ∧ PDFVersion.PDF1_7.lt .PDF2_0) ∧
    (PDFVersion.PDF1_0.lt .PDF1_4 ∧ PDFVersion.PDF1_4.lt .PDF2_0) := by
  refine ⟨?_, ?_, ?_, ?_, ?_⟩ <;> decide

/-- C6: rendering a `PDFVersion` maps each of the nine variants to exactly
its documented literal string; being a total Lean function, it has no
error path. -/
theorem c6_display_strings :
    PDFVersion.display .PDF1_0 = "1.0" ∧ PDFVersion.display .PDF1_1 = "1.1" ∧
    PDFVersion.display .PDF1_2 = "1.2" ∧ PDFVersion.display .PDF1_3 = "1.3" ∧
    PDFVersion.display .PDF1_4 = "1.4" ∧ PDFVersion.display .PDF1_5 = "1.5" ∧
    PDFVersion.display .PDF1_6 = "1.6" ∧ PDFVersion.display .PDF1_7 = "1.7" ∧
    PDFVersion.display .PDF2_0 = "2.0" :=
  ⟨rfl, rfl, rfl, rfl, rfl, rfl, rfl, rfl, rfl⟩

/-- C7: when the path cannot be opened, `from_file_path` fails with the
`FileOpen` kind wrapping the lower-level I/O error, and never with
`BadVersionIdentifier`. -/
theorem c7_open_failure (fs : String → Except IOError (List Nat))
    (path : String) (e : IOError) (h : fs path = .error e) :
    from_file_path fs path = .error (.FileOpen e) ∧
    from_file_path fs path ≠ .error .BadVersionIdentifier := by
  have heq : from_file_path fs path = .error (.FileOpen e) := by
    unfold from_file_path
    rw [h]
  refine ⟨heq, ?_⟩
  rw [heq]
  simp

/-- C7 witness: a filesystem on which every open fails with error code 7. -/
theorem c7_open_failure_witness :
    from_file_path (fun _ => .error 7) "missing.pdf" = .error (.FileOpen 7) ∧
    from_file_path (fun _ => .error 7) "missing.pdf" ≠
      .error .BadVersionIdentifier :=
  c7_open_failure (fun _ => .error 7) "missing.pdf" 7 rfl

/-- C8: after a successful construction in which the single read returned
the full 10 bytes, the wrapped source is unchanged and its read position
is exactly 10 bytes past its start; no rewind or other seek occurs. -/
theorem c8_position_after_full_read (data : List Nat) (p : PDFReader)
    (hlen : 10 ≤ data.length) (h : from_bufreader ⟨data, 0⟩ = .ok p) :
    p.inner.data = data ∧ p.inner.pos = 10 := by
  simp only [from_bufreader, ByteReader.read, List.drop_zero] at h
  cases hm : version_match (mkWindow (data.take 10)) with
  | error e =>
    rw [hm] at h
    exact absurd h (by simp)
  | ok v =>
    rw [hm] at h
    injection h with h'
    subst h'
    refine ⟨rfl, ?_⟩
    show 0 + (data.take 10).length = 10
    rw [List.length_take]
    omega

/-- C8 witness: the CRLF signature of version 1.0 as the whole source. -/
theorem c8_position_after_full_read_witness :
    (⟨⟨sigCRLF .PDF1_0, 10⟩, .PDF1_0⟩ : PDFReader).inner.data = sigCRLF .PDF1_0 ∧
    (⟨⟨sigCRLF .PDF1_0, 10⟩, .PDF1_0⟩ : PDFReader).inner.pos = 10 :=
  c8_position_after_full_read (sigCRLF .PDF1_0) _ (by decide) rfl

/-- C9: a read that fails with an I/O error is surfaced as the `FileOpen`
error kind, whose display string is "unable to open file", because the
`io::Error` conversion folds read failures into the open-failure variant. -/
theorem c9_read_error_surfaces_as_fileopen (e : IOError) :
    from_read_result (.error e) = .error (.FileOpen e) ∧
    errorMessage (.FileOpen e) = "unable to open file" :=
  ⟨rfl, rfl⟩

/-- C10: a successful read that deposits fewer than 9 bytes into the
zero-initialised window leaves the zero byte at position 8, which no
accepted pattern allows, so the result is `BadVersionIdentifier`. -/
theorem c10_short_read_bad_version (deposited : List Nat)
    (h : deposited.length < 9) :
    from_read_result (.ok deposited) = .error .BadVersionIdentifier := by
  have ht : deposited.take 10 = deposited := List.take_of_length_le (by omega)
  have h8 : (mkWindow deposited)[8]? = some 0 := by
    rw [mkWindow, ht, List.getElem?_append_right (by omega),
      List.getElem?_replicate, if_pos (by omega)]
  exact version_match_zero8 _ h8

/-- C10 witness: the truncated 7-byte header `%PDF-1.` is rejected. -/
theorem c10_short_read_bad_version_witness :
    ([37, 80, 68, 70, 45, 49, 46] : List Nat).length < 9 ∧
    from_read_result (.ok [37, 80, 68, 70, 45, 49, 46]) =
      .error .BadVersionIdentifier :=
  ⟨by decide, c10_short_read_bad_version _ (by decide)⟩
